import Mathlib

/-!
Verification development for the zeno-client upload pipeline.

The repository ships the pipeline described in its specification: a Column
Normalizer (rename/validate role columns), a Payload Encoder (binary columnar
transport buffer plus JSON metadata), a Transport Client (authenticated HTTP
calls with response-code classification) and a Project Handle combining them.
The Python module body is not part of the source tree here, so the pipeline
components are modelled from the specification text and from the generated
API documentation in README.md.
-/

namespace Zeno

/-- A cell value of a table column: integer, boolean, string, or the
missing-value marker. -/
inductive Value where
  | vInt : Int → Value
  | vBool : Bool → Value
  | vStr : String → Value
  | vNull : Value
deriving DecidableEq, Repr

/-- Column dtypes carried by a table: numeric, boolean, string. -/
inductive Dtype where
  | dInt : Dtype
  | dBool : Dtype
  | dStr : Dtype
deriving DecidableEq, Repr

/-- Whether a cell value is admissible in a column of the given dtype.
The missing-value marker is admissible in every column. -/
def Value.matchesD : Value → Dtype → Bool
  | .vInt _, .dInt => true
  | .vBool _, .dBool => true
  | .vStr _, .dStr => true
  | .vNull, _ => true
  | _, _ => false

/-- A named column: a label, a dtype, and the ordered cell values. -/
structure Col where
  name : String
  dtype : Dtype
  values : List Value
deriving DecidableEq, Repr

/-- A table is an ordered list of named columns; row order is the order of
each column value list. -/
structure Table where
  cols : List Col
deriving DecidableEq, Repr

/-- The column labels of a table, in order. -/
def Table.colNames (t : Table) : List String := t.cols.map Col.name

/-- Find the column with the given label, if present. -/
def Table.lookupCol (t : Table) (n : String) : Option Col :=
  t.cols.find? fun c => c.name == n

/-- Whether the table has a column with the given label. -/
def Table.hasCol (t : Table) (n : String) : Bool :=
  t.cols.any fun c => c.name == n

/-- Number of rows of a table (length of the first column; 0 when empty). -/
def Table.rowCount (t : Table) : Nat :=
  (t.cols.head?.map fun c => c.values.length).getD 0

/-- The rows of a table, as the transpose of the column value lists. -/
def Table.rows (t : Table) : List (List Value) :=
  (t.cols.map Col.values).transpose

/-- All cell values, column by column (names stripped). -/
def Table.colValues (t : Table) : List (List Value) :=
  t.cols.map Col.values

/-- All column dtypes, in order. -/
def Table.colDtypes (t : Table) : List Dtype :=
  t.cols.map Col.dtype

/-- A column is well typed when every cell value is admissible for its dtype. -/
def Col.wellTyped (c : Col) : Bool :=
  c.values.all fun v => v.matchesD c.dtype

/-- A table is well typed when all its columns are. -/
def Table.wellTyped (t : Table) : Bool :=
  t.cols.all Col.wellTyped

/-- The error taxonomy of the specification: SchemaError, EncodingError,
AuthError, NotFoundError, ConflictError, RequestError carrying the backend
status code and message. -/
inductive ZenoError where
  | schemaError : String → ZenoError
  | encodingError : String → ZenoError
  | authError : Nat → ZenoError
  | notFoundError : ZenoError
  | conflictError : ZenoError
  | requestError : Nat → String → ZenoError
deriving DecidableEq, Repr

/-- Rename a single column when its label equals `src`; values and dtype are
untouched. -/
def Col.renameTo (c : Col) (src dst : String) : Col :=
  if c.name == src then { c with name := dst } else c

/-- Rename every column labelled `src` to `dst`; only labels change. -/
def Table.renameCol (t : Table) (src dst : String) : Table :=
  ⟨t.cols.map fun c => c.renameTo src dst⟩

/-- Rename for an optional role: no role name given means no rename. -/
def Table.renameOpt (t : Table) (src : Option String) (dst : String) : Table :=
  match src with
  | none => t
  | some s => t.renameCol s dst

/-- Whether a list of cell values contains a duplicate. -/
def listHasDup : List Value → Bool
  | [] => false
  | v :: vs => vs.contains v || listHasDup vs

/-- The values of the designated identifier column ([] when absent). -/
def Table.idValues (t : Table) (idColumn : String) : List Value :=
  ((t.lookupCol idColumn).map Col.values).getD []

/-- Modelled from the spec: the Column Normalizer for dataset uploads
(the Python module body is absent from the source tree). Given the table and
the role column names (identifier required, label and data optional), fail
with a SchemaError when a referenced role column is absent or when the
identifier column contains duplicate values; otherwise rename the role
columns to the canonical labels id, label, data. -/
def normalizeDataset (t : Table) (idColumn : String)
    (labelColumn dataColumn : Option String) : Except ZenoError Table :=
  if !t.hasCol idColumn then
    .error (.schemaError "id column not found in dataframe")
  else if labelColumn.any fun lc => !t.hasCol lc then
    .error (.schemaError "label column not found in dataframe")
  else if dataColumn.any fun dc => !t.hasCol dc then
    .error (.schemaError "data column not found in dataframe")
  else if listHasDup (t.idValues idColumn) then
    .error (.schemaError "id column contains duplicate values")
  else
    .ok (((t.renameCol idColumn "id").renameOpt labelColumn "label").renameOpt
      dataColumn "data")

/-- Modelled from the spec: the Column Normalizer for system uploads
(the Python module body is absent from the source tree). Both the output and
the identifier role are required; failures are SchemaErrors; role columns are
renamed to the canonical labels output and id. -/
def normalizeSystem (t : Table) (outputColumn idColumn : String) :
    Except ZenoError Table :=
  if !t.hasCol outputColumn then
    .error (.schemaError "output column not found in dataframe")
  else if !t.hasCol idColumn then
    .error (.schemaError "id column not found in dataframe")
  else if listHasDup (t.idValues idColumn) then
    .error (.schemaError "id column contains duplicate values")
  else
    .ok ((t.renameCol outputColumn "output").renameCol idColumn "id")

/-- A primitive of the binary columnar transport format. -/
inductive Prim where
  | pInt : Int → Prim
  | pBool : Bool → Prim
  | pStr : String → Prim
deriving DecidableEq, Repr

/-- An encoded column of the transport buffer: label, dtype tag, and cells;
a missing value is carried as `none`, the null marker of the format. -/
structure EncCol where
  name : String
  dtype : Dtype
  cells : List (Option Prim)
deriving DecidableEq, Repr

/-- The table purpose recorded in the JSON metadata envelope. -/
inductive Purpose where
  | dataset : Purpose
  | system : String → Purpose
deriving DecidableEq, Repr

/-- The transport payload: binary columnar buffer plus the metadata envelope
(owning project identifier, purpose, and the system name for system uploads). -/
structure Payload where
  projectUuid : String
  purpose : Purpose
  columns : List EncCol
deriving DecidableEq, Repr

/-- Encode one cell value at the given column dtype. A missing value encodes
to the null marker `none`; a value of a dtype the column cannot represent is
an EncodingError. -/
def encodeValue (d : Dtype) : Value → Except ZenoError (Option Prim)
  | .vNull => .ok none
  | .vInt n =>
    if d = .dInt then .ok (some (.pInt n))
    else .error (.encodingError "unsupported value for column dtype")
  | .vBool b =>
    if d = .dBool then .ok (some (.pBool b))
    else .error (.encodingError "unsupported value for column dtype")
  | .vStr s =>
    if d = .dStr then .ok (some (.pStr s))
    else .error (.encodingError "unsupported value for column dtype")

/-- Encode a list of cell values at a fixed dtype, failing on the first
unrepresentable value. -/
def encodeValues (d : Dtype) : List Value → Except ZenoError (List (Option Prim))
  | [] => .ok []
  | v :: vs =>
    match encodeValue d v with
    | .error e => .error e
    | .ok c =>
      match encodeValues d vs with
      | .error e => .error e
      | .ok cs => .ok (c :: cs)

/-- Encode one column into the columnar buffer. -/
def encodeCol (c : Col) : Except ZenoError EncCol :=
  match encodeValues c.dtype c.values with
  | .error e => .error e
  | .ok cells => .ok ⟨c.name, c.dtype, cells⟩

/-- Encode all columns, failing on the first unrepresentable column. -/
def encodeCols : List Col → Except ZenoError (List EncCol)
  | [] => .ok []
  | c :: cs =>
    match encodeCol c with
    | .error e => .error e
    | .ok e =>
      match encodeCols cs with
      | .error e2 => .error e2
      | .ok es => .ok (e :: es)

/-- Modelled from the spec: the Payload Encoder (the Python module body is
absent from the source tree). The first component of the result is the
table as the caller observes it after the call: the encoder works on its own
copy and never writes back, so it is the input table itself, on success and
on failure alike. -/
def encodeTable (projectUuid : String) (purpose : Purpose) (t : Table) :
    Table × Except ZenoError Payload :=
  (t, (encodeCols t.cols).map fun ecs => ⟨projectUuid, purpose, ecs⟩)

/-- Decode one transport cell back to a table value. -/
def decodeCell : Option Prim → Value
  | none => .vNull
  | some (.pInt n) => .vInt n
  | some (.pBool b) => .vBool b
  | some (.pStr s) => .vStr s

/-- Decode one encoded column. -/
def decodeCol (e : EncCol) : Col :=
  ⟨e.name, e.dtype, e.cells.map decodeCell⟩

/-- Decode a payload back to a table. -/
def decodePayload (p : Payload) : Table :=
  ⟨p.columns.map decodeCol⟩

/-- A Project Handle: project identifier, API key, endpoint; no other state. -/
structure ProjectHandle where
  projectUuid : String
  apiKey : String
  endpoint : String
deriving DecidableEq, Repr

/-- An HTTP response as the Transport Client observes it: status code,
backend message, and body (the project identifier on successful creation
or lookup). -/
structure HttpResponse where
  status : Nat
  message : String
  body : String
deriving DecidableEq, Repr

/-- Whether an HTTP status code is a success (2xx) code. -/
def is2xx (s : Nat) : Bool :=
  200 ≤ s && s < 300

/-- Modelled from the spec: response classification of create_project in the
Transport Client (the Python module body is absent from the source tree).
HTTP 200/201 yields a Project Handle; 401/403 an AuthError; 409 a
ConflictError; any other non-2xx status a RequestError carrying the backend
status code and message. -/
def classifyCreateProject (apiKey endpoint : String) (resp : HttpResponse) :
    Except ZenoError ProjectHandle :=
  if resp.status = 200 || resp.status = 201 then
    .ok ⟨resp.body, apiKey, endpoint⟩
  else if resp.status = 401 || resp.status = 403 then
    .error (.authError resp.status)
  else if resp.status = 409 then
    .error .conflictError
  else
    .error (.requestError resp.status resp.message)

/-- Modelled from the spec: response classification of get_project in the
Transport Client (the Python module body is absent from the source tree).
HTTP 404 is a NotFoundError; a 2xx resolves the handle; any other status is
a RequestError with the backend status code and message. -/
def classifyGetProject (apiKey endpoint : String) (resp : HttpResponse) :
    Except ZenoError ProjectHandle :=
  if resp.status = 404 then
    .error .notFoundError
  else if is2xx resp.status then
    .ok ⟨resp.body, apiKey, endpoint⟩
  else
    .error (.requestError resp.status resp.message)

/-- One HTTP request as issued by the Transport Client: target URL and the
encoded payload it carries (when it carries one). -/
structure Request where
  url : String
  payload : Option Payload
deriving DecidableEq, Repr

/-- Modelled from the spec: upload_dataset on a Project Handle (the Python
module body is absent from the source tree): normalize columns, encode the
payload, then one POST, propagating the result unchanged. `backend` is the
remote service as a response oracle and `sent` the trace of requests issued
so far; the returned trace appends every request this call sends, so a local
validation or encoding failure leaves the trace unchanged. Non-2xx responses
are RequestErrors carrying the backend status code and message; there is no
retry and no recovery. -/
def uploadDataset (h : ProjectHandle) (backend : Request → HttpResponse)
    (sent : List Request) (df : Table) (idColumn : String)
    (labelColumn dataColumn : Option String) :
    List Request × Except ZenoError Unit :=
  match normalizeDataset df idColumn labelColumn dataColumn with
  | .error e => (sent, .error e)
  | .ok t =>
    match (encodeTable h.projectUuid .dataset t).2 with
    | .error e => (sent, .error e)
    | .ok p =>
      let req : Request :=
        ⟨h.endpoint ++ "/project/" ++ h.projectUuid ++ "/dataset", some p⟩
      let resp := backend req
      (sent ++ [req],
        if is2xx resp.status then .ok ()
        else .error (.requestError resp.status resp.message))

/-- Modelled from the spec: upload_system on a Project Handle (the Python
module body is absent from the source tree): normalize the output and
identifier columns, encode, then one POST to the system endpoint. The client
keeps no cross-call state: nothing in the call inspects `sent`, so a system
upload before any dataset upload still sends its request; a backend
rejection surfaces as a RequestError with the status code and message,
without retry. -/
def uploadSystem (h : ProjectHandle) (backend : Request → HttpResponse)
    (sent : List Request) (systemName : String) (df : Table)
    (outputColumn idColumn : String) :
    List Request × Except ZenoError Unit :=
  match normalizeSystem df outputColumn idColumn with
  | .error e => (sent, .error e)
  | .ok t =>
    match (encodeTable h.projectUuid (.system systemName) t).2 with
    | .error e => (sent, .error e)
    | .ok p =>
      let req : Request :=
        ⟨h.endpoint ++ "/project/" ++ h.projectUuid ++ "/system/" ++ systemName,
          some p⟩
      let resp := backend req
      (sent ++ [req],
        if is2xx resp.status then .ok ()
        else .error (.requestError resp.status resp.message))

/-- A metric to calculate for a Zeno project, as documented in README.md:
id is the ID of the metric, -1 if not set; name, type, and the columns to
calculate the metric on. -/
structure ZenoMetric where
  id : Int
  name : String
  type : String
  columns : List String
deriving DecidableEq, Repr

/-- Modelled from the spec: local construction of a Metric Descriptor before
the backend assigns an identifier (the Python module body is absent from the
source tree); the id field holds the sentinel -1, per README.md. -/
def ZenoMetric.mkLocal (name type : String) (columns : List String) : ZenoMetric :=
  ⟨-1, name, type, columns⟩

/-- Backend identifier assignment for a Metric Descriptor: only then does a
non-sentinel id appear. -/
def ZenoMetric.assignId (m : ZenoMetric) (newId : Int) : ZenoMetric :=
  { m with id := newId }

/-- Modelled from the spec: the request body of create_project, with the
defaults of the signature documented in README.md (metrics [], data_url "",
calculate_histogram_metrics True, samples_per_page 10, public True). -/
structure CreateProjectParams where
  name : String
  view : String
  metrics : List ZenoMetric := []
  dataUrl : String := ""
  calculateHistogramMetrics : Bool := true
  samplesPerPage : Nat := 10
  public : Bool := true
deriving DecidableEq, Repr

/-- The create_project request body built when the caller passes only the
required name and view and omits every optional argument. -/
def createProjectDefaults (name view : String) : CreateProjectParams :=
  { name := name, view := view }

/-- What the generated argument documentation in README.md states as the
default of the public argument: "Defaults to False." -/
def documentedPublicDefault : Bool := false

/-! Helper lemmas: renaming touches only column labels. -/

theorem Col.renameTo_values (c : Col) (src dst : String) :
    (c.renameTo src dst).values = c.values := by
  unfold Col.renameTo
  split <;> rfl

theorem Col.renameTo_dtype (c : Col) (src dst : String) :
    (c.renameTo src dst).dtype = c.dtype := by
  unfold Col.renameTo
  split <;> rfl

theorem Col.renameTo_wellTyped (c : Col) (src dst : String) :
    (c.renameTo src dst).wellTyped = c.wellTyped := by
  unfold Col.renameTo
  split <;> rfl

theorem Table.renameCol_colValues (t : Table) (src dst : String) :
    (t.renameCol src dst).colValues = t.colValues := by
  simp [Table.renameCol, Table.colValues, List.map_map, Function.comp,
    Col.renameTo_values]

theorem Table.renameCol_colDtypes (t : Table) (src dst : String) :
    (t.renameCol src dst).colDtypes = t.colDtypes := by
  simp [Table.renameCol, Table.colDtypes, List.map_map, Function.comp,
    Col.renameTo_dtype]

theorem Table.renameCol_wellTyped (t : Table) (src dst : String) :
    (t.renameCol src dst).wellTyped = t.wellTyped := by
  simp only [Table.renameCol, Table.wellTyped, List.all_map]
  congr 1
  funext c
  simp only [Function.comp_apply]
  exact c.renameTo_wellTyped src dst

theorem Table.renameOpt_colValues (t : Table) (src : Option String) (dst : String) :
    (t.renameOpt src dst).colValues = t.colValues := by
  cases src with
  | none => rfl
  | some s => exact t.renameCol_colValues s dst

theorem Table.renameOpt_colDtypes (t : Table) (src : Option String) (dst : String) :
    (t.renameOpt src dst).colDtypes = t.colDtypes := by
  cases src with
  | none => rfl
  | some s => exact t.renameCol_colDtypes s dst

theorem Table.renameOpt_wellTyped (t : Table) (src : Option String) (dst : String) :
    (t.renameOpt src dst).wellTyped = t.wellTyped := by
  cases src with
  | none => rfl
  | some s => exact t.renameCol_wellTyped s dst

/-- Row count is determined by the column value lists. -/
theorem Table.rowCount_eq_of_colValues (a b : Table) (h : a.colValues = b.colValues) :
    a.rowCount = b.rowCount := by
  have key : ∀ x : Table, x.rowCount = ((x.colValues.head?).map List.length).getD 0 := by
    intro x
    obtain ⟨cols⟩ := x
    cases cols <;> rfl
  rw [key a, key b, h]

/-- Rows are determined by the column value lists. -/
theorem Table.rows_eq_of_colValues (a b : Table) (h : a.colValues = b.colValues) :
    a.rows = b.rows := by
  unfold Table.rows
  show a.colValues.transpose = b.colValues.transpose
  rw [h]

/-! Helper lemmas: inversion of the Column Normalizer on success. -/

theorem normalizeDataset_ok_eq (t t' : Table) (idc : String) (lc dc : Option String)
    (h : normalizeDataset t idc lc dc = Except.ok t') :
    t' = ((t.renameCol idc "id").renameOpt lc "label").renameOpt dc "data" := by
  unfold normalizeDataset at h
  split at h
  · cases h
  · split at h
    · cases h
    · split at h
      · cases h
      · split at h
        · cases h
        · cases h
          rfl

theorem normalizeSystem_ok_eq (t t' : Table) (outc idc : String)
    (h : normalizeSystem t outc idc = Except.ok t') :
    t' = (t.renameCol outc "output").renameCol idc "id" := by
  unfold normalizeSystem at h
  split at h
  · cases h
  · split at h
    · cases h
    · split at h
      · cases h
      · cases h
        rfl

theorem normalizeDataset_colValues (t t' : Table) (idc : String) (lc dc : Option String)
    (h : normalizeDataset t idc lc dc = Except.ok t') :
    t'.colValues = t.colValues := by
  rw [normalizeDataset_ok_eq t t' idc lc dc h, Table.renameOpt_colValues,
    Table.renameOpt_colValues, Table.renameCol_colValues]

theorem normalizeDataset_colDtypes (t t' : Table) (idc : String) (lc dc : Option String)
    (h : normalizeDataset t idc lc dc = Except.ok t') :
    t'.colDtypes = t.colDtypes := by
  rw [normalizeDataset_ok_eq t t' idc lc dc h, Table.renameOpt_colDtypes,
    Table.renameOpt_colDtypes, Table.renameCol_colDtypes]

theorem normalizeDataset_wellTyped (t t' : Table) (idc : String) (lc dc : Option String)
    (h : normalizeDataset t idc lc dc = Except.ok t') :
    t'.wellTyped = t.wellTyped := by
  rw [normalizeDataset_ok_eq t t' idc lc dc h, Table.renameOpt_wellTyped,
    Table.renameOpt_wellTyped, Table.renameCol_wellTyped]

theorem normalizeSystem_colValues (t t' : Table) (outc idc : String)
    (h : normalizeSystem t outc idc = Except.ok t') :
    t'.colValues = t.colValues := by
  rw [normalizeSystem_ok_eq t t' outc idc h, Table.renameCol_colValues,
    Table.renameCol_colValues]

theorem normalizeSystem_colDtypes (t t' : Table) (outc idc : String)
    (h : normalizeSystem t outc idc = Except.ok t') :
    t'.colDtypes = t.colDtypes := by
  rw [normalizeSystem_ok_eq t t' outc idc h, Table.renameCol_colDtypes,
    Table.renameCol_colDtypes]

theorem normalizeSystem_wellTyped (t t' : Table) (outc idc : String)
    (h : normalizeSystem t outc idc = Except.ok t') :
    t'.wellTyped = t.wellTyped := by
  rw [normalizeSystem_ok_eq t t' outc idc h, Table.renameCol_wellTyped,
    Table.renameCol_wellTyped]

/-- Duplicate identifier values force a SchemaError in the dataset normalizer,
whichever validation branch fires first. -/
theorem normalizeDataset_dup (t : Table) (idc : String) (lc dc : Option String)
    (hdup : listHasDup (t.idValues idc) = true) :
    ∃ m, normalizeDataset t idc lc dc = Except.error (ZenoError.schemaError m) := by
  unfold normalizeDataset
  repeat' split
  all_goals first
    | exact ⟨_, rfl⟩
    | (rename_i hq; exact absurd hdup hq)

/-! Helper lemmas: the Payload Encoder round-trips well-typed columns and
carries missing values as the null marker. -/

theorem encodeValue_decodeCell (d : Dtype) (v : Value) (hv : v.matchesD d = true) :
    ∃ cell, encodeValue d v = Except.ok cell ∧ decodeCell cell = v := by
  cases v with
  | vNull => exact ⟨none, rfl, rfl⟩
  | vInt n =>
    cases d with
    | dInt => exact ⟨some (.pInt n), rfl, rfl⟩
    | dBool => simp [Value.matchesD] at hv
    | dStr => simp [Value.matchesD] at hv
  | vBool b =>
    cases d with
    | dBool => exact ⟨some (.pBool b), rfl, rfl⟩
    | dInt => simp [Value.matchesD] at hv
    | dStr => simp [Value.matchesD] at hv
  | vStr s =>
    cases d with
    | dStr => exact ⟨some (.pStr s), rfl, rfl⟩
    | dInt => simp [Value.matchesD] at hv
    | dBool => simp [Value.matchesD] at hv

theorem encodeValue_null_iff (d : Dtype) (v : Value) (cell : Option Prim)
    (h : encodeValue d v = Except.ok cell) :
    v = Value.vNull ↔ cell = none := by
  cases v <;> cases d <;>
    simp only [encodeValue] at h <;>
    first
      | (cases h; simp)
      | (split at h <;> cases h <;> simp)

theorem encodeValues_decode (d : Dtype) (vs : List Value)
    (hv : vs.all (fun v => v.matchesD d) = true) :
    ∃ cells, encodeValues d vs = Except.ok cells ∧ cells.map decodeCell = vs := by
  induction vs with
  | nil => exact ⟨[], rfl, rfl⟩
  | cons v vs ih =>
    rw [List.all_cons, Bool.and_eq_true] at hv
    obtain ⟨cell, he, hd⟩ := encodeValue_decodeCell d v hv.1
    obtain ⟨cells, hes, hds⟩ := ih hv.2
    refine ⟨cell :: cells, ?_, ?_⟩
    · simp only [encodeValues, he, hes]
    · simp [hd, hds]

theorem encodeValues_null (d : Dtype) (vs : List Value)
    (cells : List (Option Prim)) (h : encodeValues d vs = Except.ok cells) :
    List.Forall₂ (fun v cell => v = Value.vNull ↔ cell = none) vs cells := by
  induction vs generalizing cells with
  | nil =>
    simp only [encodeValues] at h
    cases h
    exact List.Forall₂.nil
  | cons v vs ih =>
    simp only [encodeValues] at h
    cases he : encodeValue d v with
    | error e => rw [he] at h; cases h
    | ok c =>
      rw [he] at h
      cases hes : encodeValues d vs with
      | error e => rw [hes] at h; cases h
      | ok cs =>
        rw [hes] at h
        cases h
        exact List.Forall₂.cons (encodeValue_null_iff d v c he) (ih cs hes)

theorem encodeCol_decode (c : Col) (hc : c.wellTyped = true) :
    ∃ e, encodeCol c = Except.ok e ∧ decodeCol e = c := by
  obtain ⟨cells, he, hd⟩ := encodeValues_decode c.dtype c.values hc
  refine ⟨⟨c.name, c.dtype, cells⟩, ?_, ?_⟩
  · simp only [encodeCol, he]
  · simp [decodeCol, hd]

theorem encodeCols_decode (cs : List Col) (h : cs.all Col.wellTyped = true) :
    ∃ es, encodeCols cs = Except.ok es ∧ es.map decodeCol = cs := by
  induction cs with
  | nil => exact ⟨[], rfl, rfl⟩
  | cons c cs ih =>
    rw [List.all_cons, Bool.and_eq_true] at h
    obtain ⟨e, he, hd⟩ := encodeCol_decode c h.1
    obtain ⟨es, hes, hds⟩ := ih h.2
    refine ⟨e :: es, ?_, ?_⟩
    · simp only [encodeCols, he, hes]
    · simp [hd, hds]

theorem encodeCol_null (c : Col) (e : EncCol) (h : encodeCol c = Except.ok e) :
    e.cells.length = c.values.length ∧
      List.Forall₂ (fun v cell => v = Value.vNull ↔ cell = none) c.values e.cells := by
  simp only [encodeCol] at h
  cases hes : encodeValues c.dtype c.values with
  | error er => rw [hes] at h; cases h
  | ok cells =>
    rw [hes] at h
    cases h
    have hf := encodeValues_null c.dtype c.values cells hes
    exact ⟨hf.length_eq.symm, hf⟩

theorem encodeCols_null (cs : List Col) (es : List EncCol)
    (h : encodeCols cs = Except.ok es) :
    List.Forall₂ (fun c e => e.cells.length = c.values.length ∧
      List.Forall₂ (fun v cell => v = Value.vNull ↔ cell = none) c.values e.cells)
      cs es := by
  induction cs generalizing es with
  | nil =>
    simp only [encodeCols] at h
    cases h
    exact List.Forall₂.nil
  | cons c cs ih =>
    simp only [encodeCols] at h
    cases he : encodeCol c with
    | error er => rw [he] at h; cases h
    | ok e =>
      rw [he] at h
      cases hes : encodeCols cs with
      | error er => rw [hes] at h; cases h
      | ok es2 =>
        rw [hes] at h
        cases h
        exact List.Forall₂.cons (encodeCol_null c e he) (ih es2 hes)

theorem encodeTable_decode (u : String) (purp : Purpose) (t : Table)
    (h : t.wellTyped = true) :
    ∃ p, (encodeTable u purp t).2 = Except.ok p ∧ decodePayload p = t := by
  obtain ⟨es, he, hd⟩ := encodeCols_decode t.cols h
  refine ⟨⟨u, purp, es⟩, ?_, ?_⟩
  · simp only [encodeTable, he, Except.map]
  · simp [decodePayload, hd]

theorem encodeTable_ok_columns (u : String) (purp : Purpose) (t : Table)
    (p : Payload) (h : (encodeTable u purp t).2 = Except.ok p) :
    encodeCols t.cols = Except.ok p.columns := by
  simp only [encodeTable] at h
  cases hes : encodeCols t.cols with
  | error er => rw [hes] at h; cases h
  | ok es =>
    rw [hes] at h
    simp only [Except.map] at h
    cases h
    rfl

/-- Duplicate identifier values force a SchemaError in the system normalizer. -/
theorem normalizeSystem_dup (t : Table) (outc idc : String)
    (hdup : listHasDup (t.idValues idc) = true) :
    ∃ m, normalizeSystem t outc idc = Except.error (ZenoError.schemaError m) := by
  unfold normalizeSystem
  repeat' split
  all_goals first
    | exact ⟨_, rfl⟩
    | (rename_i hq; exact absurd hdup hq)

/-- The four validation hypotheses of a dataset upload make the Column
Normalizer succeed, returning the rename chain. -/
theorem normalizeDataset_ok_of (t : Table) (idc : String) (lc dc : Option String)
    (hid : t.hasCol idc = true)
    (hlc : ∀ s, lc = some s → t.hasCol s = true)
    (hdc : ∀ s, dc = some s → t.hasCol s = true)
    (hdup : listHasDup (t.idValues idc) = false) :
    normalizeDataset t idc lc dc =
      Except.ok (((t.renameCol idc "id").renameOpt lc "label").renameOpt dc "data") := by
  have h2 : (lc.any fun s => !t.hasCol s) = false := by
    cases lc with
    | none => rfl
    | some s => simp [Option.any, hlc s rfl]
  have h3 : (dc.any fun s => !t.hasCol s) = false := by
    cases dc with
    | none => rfl
    | some s => simp [Option.any, hdc s rfl]
  simp [normalizeDataset, hid, h2, h3, hdup]

/-! Sample data for concrete evaluation of the claims. -/

/-- A well-typed sample dataset table with a unique identifier column. -/
def sampleGood : Table :=
  ⟨[⟨"uid", Dtype.dStr, [Value.vStr "a", Value.vStr "b"]⟩,
    ⟨"x", Dtype.dInt, [Value.vInt 5, Value.vNull]⟩]⟩

/-- sampleGood after the dataset normalizer renamed its identifier column. -/
def sampleGoodRenamed : Table :=
  ⟨[⟨"id", Dtype.dStr, [Value.vStr "a", Value.vStr "b"]⟩,
    ⟨"x", Dtype.dInt, [Value.vInt 5, Value.vNull]⟩]⟩

/-- A sample table with no column labelled id. -/
def sampleNoId : Table := ⟨[⟨"a", Dtype.dInt, [Value.vInt 1]⟩]⟩

/-- A sample table whose identifier column holds duplicate values. -/
def sampleDup : Table :=
  ⟨[⟨"id", Dtype.dStr, [Value.vStr "a", Value.vStr "a"]⟩,
    ⟨"out", Dtype.dStr, [Value.vStr "x", Value.vStr "y"]⟩]⟩

/-- A well-typed sample system table. -/
def sampleSys : Table :=
  ⟨[⟨"myid", Dtype.dStr, [Value.vStr "a"]⟩,
    ⟨"myout", Dtype.dStr, [Value.vStr "p"]⟩]⟩

/-- sampleSys after the system normalizer renamed both role columns. -/
def sampleSysRenamed : Table :=
  ⟨[⟨"id", Dtype.dStr, [Value.vStr "a"]⟩,
    ⟨"output", Dtype.dStr, [Value.vStr "p"]⟩]⟩

/-- A sample table holding a missing value. -/
def sampleNullT : Table := ⟨[⟨"id", Dtype.dStr, [Value.vStr "a", Value.vNull]⟩]⟩

/-- The payload the encoder produces for sampleNullT. -/
def sampleNullP : Payload :=
  ⟨"p", Purpose.dataset, [⟨"id", Dtype.dStr, [some (Prim.pStr "a"), none]⟩]⟩

/-- A backend oracle that always rejects with a 500 status. -/
def backend500 : Request → HttpResponse := fun _ => ⟨500, "boom", ""⟩

/-- A backend oracle that always accepts with a 200 status. -/
def backend200 : Request → HttpResponse := fun _ => ⟨200, "", ""⟩

/-! The claims. -/

/-- Claim C1: for every well-typed table whose identifier column exists with
values unique across rows (and whose optional role columns exist when
configured), the Column Normalizer succeeds, the Payload Encoder succeeds,
and decoding the binary columnar payload reproduces the normalized table
exactly; since normalization only renames labels, the decoded table carries
exactly the values and dtypes of the original table (numeric, boolean,
string, and missing-value markers), numeric values being modelled exactly. -/
theorem claim_C1_roundtrip (t : Table) (idc : String) (lc dc : Option String)
    (u : String)
    (hwt : t.wellTyped = true)
    (hid : t.hasCol idc = true)
    (hlc : ∀ s, lc = some s → t.hasCol s = true)
    (hdc : ∀ s, dc = some s → t.hasCol s = true)
    (hdup : listHasDup (t.idValues idc) = false) :
    ∃ t' p, normalizeDataset t idc lc dc = Except.ok t' ∧
      (encodeTable u Purpose.dataset t').2 = Except.ok p ∧
      decodePayload p = t' ∧
      t'.colValues = t.colValues ∧
      t'.colDtypes = t.colDtypes := by
  have hn := normalizeDataset_ok_of t idc lc dc hid hlc hdc hdup
  have hwt' : (((t.renameCol idc "id").renameOpt lc "label").renameOpt
      dc "data").wellTyped = true := by
    rw [Table.renameOpt_wellTyped, Table.renameOpt_wellTyped,
      Table.renameCol_wellTyped]
    exact hwt
  obtain ⟨p, hp, hdp⟩ := encodeTable_decode u Purpose.dataset _ hwt'
  exact ⟨_, p, hn, hp, hdp,
    normalizeDataset_colValues t _ idc lc dc hn,
    normalizeDataset_colDtypes t _ idc lc dc hn⟩

/-- Witness for claim C1 at a concrete two-column table. -/
theorem claim_C1_roundtrip_witness :
    sampleGood.wellTyped = true ∧
    sampleGood.hasCol "uid" = true ∧
    listHasDup (sampleGood.idValues "uid") = false ∧
    ∃ t' p, normalizeDataset sampleGood "uid" none none = Except.ok t' ∧
      (encodeTable "proj" Purpose.dataset t').2 = Except.ok p ∧
      decodePayload p = t' ∧
      t'.colValues = sampleGood.colValues ∧
      t'.colDtypes = sampleGood.colDtypes :=
  ⟨by decide, by decide, by decide,
    claim_C1_roundtrip sampleGood "uid" none none "proj" (by decide) (by decide)
      (by intro s hs; cases hs) (by intro s hs; cases hs) (by decide)⟩

/-- Claim C2: when the configured identifier column name is absent from the
table, upload_dataset and upload_system fail with a SchemaError during
Column Normalizer validation, and the trace of issued HTTP requests is left
unchanged: no request is sent on this local validation failure. -/
theorem claim_C2_missing_id_fail_fast (h : ProjectHandle)
    (backend : Request → HttpResponse) (sent : List Request) (df : Table)
    (idc : String) (lc dc : Option String) (sys outc : String)
    (hid : df.hasCol idc = false) :
    (∃ m, uploadDataset h backend sent df idc lc dc =
        (sent, Except.error (ZenoError.schemaError m))) ∧
    (∃ m, uploadSystem h backend sent sys df outc idc =
        (sent, Except.error (ZenoError.schemaError m))) := by
  constructor
  · refine ⟨"id column not found in dataframe", ?_⟩
    simp [uploadDataset, normalizeDataset, hid]
  · cases hout : df.hasCol outc with
    | false =>
      refine ⟨"output column not found in dataframe", ?_⟩
      simp [uploadSystem, normalizeSystem, hout]
    | true =>
      refine ⟨"id column not found in dataframe", ?_⟩
      simp [uploadSystem, normalizeSystem, hout, hid]

/-- Witness for claim C2 at a concrete table lacking the id column. -/
theorem claim_C2_missing_id_fail_fast_witness :
    sampleNoId.hasCol "id" = false ∧
    ((∃ m, uploadDataset ⟨"u", "k", "e"⟩ backend200 [] sampleNoId "id" none none =
        ([], Except.error (ZenoError.schemaError m))) ∧
     (∃ m, uploadSystem ⟨"u", "k", "e"⟩ backend200 [] "sys" sampleNoId "out" "id" =
        ([], Except.error (ZenoError.schemaError m)))) :=
  ⟨by decide, claim_C2_missing_id_fail_fast ⟨"u", "k", "e"⟩ backend200 []
    sampleNoId "id" none none "sys" "out" (by decide)⟩

/-- Claim C3: when the identifier column contains duplicate values, both
upload operations fail with a SchemaError during local validation, the
request trace unchanged, so neither the Payload Encoder output nor any HTTP
request is produced (the error is returned before the encode and transport
stages of the pipeline are reached). -/
theorem claim_C3_duplicate_ids_fail_before_encoding (h : ProjectHandle)
    (backend : Request → HttpResponse) (sent : List Request) (df : Table)
    (idc : String) (lc dc : Option String) (sys outc : String)
    (hdup : listHasDup (df.idValues idc) = true) :
    (∃ m, uploadDataset h backend sent df idc lc dc =
        (sent, Except.error (ZenoError.schemaError m))) ∧
    (∃ m, uploadSystem h backend sent sys df outc idc =
        (sent, Except.error (ZenoError.schemaError m))) := by
  obtain ⟨m1, hm1⟩ := normalizeDataset_dup df idc lc dc hdup
  obtain ⟨m2, hm2⟩ := normalizeSystem_dup df outc idc hdup
  exact ⟨⟨m1, by simp [uploadDataset, hm1]⟩, ⟨m2, by simp [uploadSystem, hm2]⟩⟩

/-- Witness for claim C3 at a concrete table with duplicate identifiers. -/
theorem claim_C3_duplicate_ids_witness :
    listHasDup (sampleDup.idValues "id") = true ∧
    ((∃ m, uploadDataset ⟨"u", "k", "e"⟩ backend200 [] sampleDup "id" none none =
        ([], Except.error (ZenoError.schemaError m))) ∧
     (∃ m, uploadSystem ⟨"u", "k", "e"⟩ backend200 [] "sys" sampleDup "out" "id" =
        ([], Except.error (ZenoError.schemaError m)))) :=
  ⟨by decide, claim_C3_duplicate_ids_fail_before_encoding ⟨"u", "k", "e"⟩
    backend200 [] sampleDup "id" none none "sys" "out" (by decide)⟩

/-- Claim C4: on every successful run of the Column Normalizer (dataset or
system variant), only column labels change: the output table has the same
rows (same order and content), the same row count, and also the same
column value lists and dtypes as the input. -/
theorem claim_C4_rename_only_labels (t t' s s' : Table) (idc : String)
    (lc dc : Option String) (outc sidc : String)
    (hd : normalizeDataset t idc lc dc = Except.ok t')
    (hs : normalizeSystem s outc sidc = Except.ok s') :
    (t'.rows = t.rows ∧ t'.rowCount = t.rowCount ∧
      t'.colValues = t.colValues ∧ t'.colDtypes = t.colDtypes) ∧
    (s'.rows = s.rows ∧ s'.rowCount = s.rowCount ∧
      s'.colValues = s.colValues ∧ s'.colDtypes = s.colDtypes) := by
  have hv := normalizeDataset_colValues t t' idc lc dc hd
  have hv2 := normalizeSystem_colValues s s' outc sidc hs
  exact ⟨⟨Table.rows_eq_of_colValues t' t hv, Table.rowCount_eq_of_colValues t' t hv,
      hv, normalizeDataset_colDtypes t t' idc lc dc hd⟩,
    ⟨Table.rows_eq_of_colValues s' s hv2, Table.rowCount_eq_of_colValues s' s hv2,
      hv2, normalizeSystem_colDtypes s s' outc sidc hs⟩⟩

/-- Witness for claim C4 at concrete dataset and system tables. -/
theorem claim_C4_rename_only_labels_witness :
    normalizeDataset sampleGood "uid" none none = Except.ok sampleGoodRenamed ∧
    normalizeSystem sampleSys "myout" "myid" = Except.ok sampleSysRenamed ∧
    ((sampleGoodRenamed.rows = sampleGood.rows ∧
      sampleGoodRenamed.rowCount = sampleGood.rowCount ∧
      sampleGoodRenamed.colValues = sampleGood.colValues ∧
      sampleGoodRenamed.colDtypes = sampleGood.colDtypes) ∧
     (sampleSysRenamed.rows = sampleSys.rows ∧
      sampleSysRenamed.rowCount = sampleSys.rowCount ∧
      sampleSysRenamed.colValues = sampleSys.colValues ∧
      sampleSysRenamed.colDtypes = sampleSys.colDtypes)) :=
  ⟨rfl, rfl,
    claim_C4_rename_only_labels sampleGood sampleGoodRenamed sampleSys
      sampleSysRenamed "uid" none none "myout" "myid" rfl rfl⟩

/-- Claim C5: the Payload Encoder never mutates the caller's table: the
table the caller observes after the call is the input table itself, whether
the encoding succeeded or failed with an EncodingError. -/
theorem claim_C5_encoder_no_mutation (u : String) (purp : Purpose) (t : Table) :
    (encodeTable u purp t).1 = t := rfl

/-- Claim C6: whenever the Payload Encoder succeeds, the payload has exactly
one encoded column per table column and each encoded column exactly one cell
per value (nothing silently dropped), and a cell is the transport null
marker exactly at the positions where the value is the missing-value marker
(so no missing value is ever serialized as a string such as nan). -/
theorem claim_C6_nulls_to_null_marker (u : String) (purp : Purpose) (t : Table)
    (p : Payload) (h : (encodeTable u purp t).2 = Except.ok p) :
    p.columns.length = t.cols.length ∧
    List.Forall₂ (fun c e => e.cells.length = c.values.length ∧
      List.Forall₂ (fun v cell => v = Value.vNull ↔ cell = none) c.values e.cells)
      t.cols p.columns := by
  have hc := encodeTable_ok_columns u purp t p h
  have hf := encodeCols_null t.cols p.columns hc
  exact ⟨hf.length_eq.symm, hf⟩

/-- Witness for claim C6 at a concrete table with a missing value. -/
theorem claim_C6_nulls_to_null_marker_witness :
    (encodeTable "p" Purpose.dataset sampleNullT).2 = Except.ok sampleNullP ∧
    (sampleNullP.columns.length = sampleNullT.cols.length ∧
     List.Forall₂ (fun c e => e.cells.length = c.values.length ∧
       List.Forall₂ (fun v cell => v = Value.vNull ↔ cell = none) c.values e.cells)
       sampleNullT.cols sampleNullP.columns) :=
  ⟨rfl, claim_C6_nulls_to_null_marker "p" Purpose.dataset sampleNullT sampleNullP rfl⟩

/-- Claim C7: the Transport Client classifies HTTP outcomes into the error
taxonomy: create_project yields a Project Handle on 200/201, an AuthError on
401/403, a ConflictError on 409, and a RequestError carrying the backend
status code and message on any other non-2xx status; get_project yields a
NotFoundError on 404. -/
theorem claim_C7_transport_taxonomy (ak ep : String) (resp : HttpResponse) :
    ((resp.status = 200 ∨ resp.status = 201) →
      classifyCreateProject ak ep resp = Except.ok ⟨resp.body, ak, ep⟩) ∧
    ((resp.status = 401 ∨ resp.status = 403) →
      classifyCreateProject ak ep resp =
        Except.error (ZenoError.authError resp.status)) ∧
    (resp.status = 409 →
      classifyCreateProject ak ep resp = Except.error ZenoError.conflictError) ∧
    (is2xx resp.status = false → resp.status ≠ 401 → resp.status ≠ 403 →
      resp.status ≠ 409 →
      classifyCreateProject ak ep resp =
        Except.error (ZenoError.requestError resp.status resp.message)) ∧
    (resp.status = 404 →
      classifyGetProject ak ep resp = Except.error ZenoError.notFoundError) := by
  refine ⟨?_, ?_, ?_, ?_, ?_⟩
  · rintro (h | h) <;> simp [classifyCreateProject, h]
  · rintro (h | h) <;> simp [classifyCreateProject, h]
  · intro h
    simp [classifyCreateProject, h]
  · intro h1 h2 h3 h4
    have h200 : resp.status ≠ 200 := by
      intro hh
      rw [hh] at h1
      simp [is2xx] at h1
    have h201 : resp.status ≠ 201 := by
      intro hh
      rw [hh] at h1
      simp [is2xx] at h1
    simp [classifyCreateProject, h200, h201, h2, h3, h4]
  · intro h
    simp [classifyGetProject, h]

/-- Witness for claim C7 at a concrete 409 response. -/
theorem claim_C7_transport_taxonomy_witness :
    classifyCreateProject "k" "e" ⟨409, "m", "b"⟩ =
      Except.error ZenoError.conflictError :=
  (claim_C7_transport_taxonomy "k" "e" ⟨409, "m", "b"⟩).2.2.1 rfl

/-- Claim C8: upload_system inspects no cross-call state: for every prior
request trace, a dataset upload having happened or not, a valid system
upload sends exactly one HTTP request; a 2xx backend response yields
success, and a non-2xx backend rejection is raised as a RequestError
carrying the backend status code and message, with no retry (the trace
grows by exactly the one request) and no silent recovery. -/
theorem claim_C8_system_upload_no_cross_call_state (h : ProjectHandle)
    (backend : Request → HttpResponse) (sent : List Request) (sys : String)
    (df t' : Table) (outc idc : String)
    (hnorm : normalizeSystem df outc idc = Except.ok t')
    (hwt : df.wellTyped = true) :
    ∃ req, (uploadSystem h backend sent sys df outc idc).1 = sent ++ [req] ∧
      (is2xx (backend req).status = true →
        (uploadSystem h backend sent sys df outc idc).2 = Except.ok ()) ∧
      (is2xx (backend req).status = false →
        (uploadSystem h backend sent sys df outc idc).2 =
          Except.error (ZenoError.requestError (backend req).status
            (backend req).message)) := by
  have hwt' : t'.wellTyped = true := by
    rw [normalizeSystem_wellTyped df t' outc idc hnorm]
    exact hwt
  obtain ⟨p, hp, _⟩ := encodeTable_decode h.projectUuid (Purpose.system sys) t' hwt'
  refine ⟨⟨h.endpoint ++ "/project/" ++ h.projectUuid ++ "/system/" ++ sys, some p⟩,
    ?_, ?_, ?_⟩
  · simp [uploadSystem, hnorm, hp]
  · intro hok
    simp [uploadSystem, hnorm, hp, hok]
  · intro hbad
    simp [uploadSystem, hnorm, hp, hbad]

/-- Witness for claim C8 at a concrete system table, empty prior trace
(no dataset upload happened), and a rejecting backend. -/
theorem claim_C8_system_upload_witness :
    normalizeSystem sampleSys "myout" "myid" = Except.ok sampleSysRenamed ∧
    sampleSys.wellTyped = true ∧
    ∃ req, (uploadSystem ⟨"u", "k", "e"⟩ backend500 [] "s1" sampleSys
        "myout" "myid").1 = [] ++ [req] ∧
      (is2xx (backend500 req).status = true →
        (uploadSystem ⟨"u", "k", "e"⟩ backend500 [] "s1" sampleSys
          "myout" "myid").2 = Except.ok ()) ∧
      (is2xx (backend500 req).status = false →
        (uploadSystem ⟨"u", "k", "e"⟩ backend500 [] "s1" sampleSys
          "myout" "myid").2 =
          Except.error (ZenoError.requestError (backend500 req).status
            (backend500 req).message)) :=
  ⟨rfl, by decide,
    claim_C8_system_upload_no_cross_call_state ⟨"u", "k", "e"⟩ backend500 []
      "s1" sampleSys sampleSysRenamed "myout" "myid" rfl (by decide)⟩

/-- Claim C9: a Metric Descriptor constructed locally carries the sentinel
value -1 in its id field; a non-sentinel id appears only once the backend
assignment sets it. -/
theorem claim_C9_metric_sentinel_id (n ty : String) (cs : List String)
    (m : ZenoMetric) (k : Int) :
    (ZenoMetric.mkLocal n ty cs).id = -1 ∧ (m.assignId k).id = k :=
  ⟨rfl, rfl⟩

/-- Claim C10: a create_project call that omits the public argument builds
its request with public = true, the default of the signature, even though
the generated argument documentation states that public defaults to False. -/
theorem claim_C10_public_default_true (n v : String) :
    (createProjectDefaults n v).public = true ∧
    (createProjectDefaults n v).public ≠ documentedPublicDefault :=
  ⟨rfl, fun hcontra => Bool.noConfusion hcontra⟩

end Zeno
